import Mathlib

/-!
Shallow embedding of the read-redux state container
(src/src/createStore.js, src/src/applyMiddleware.js, src/unnamed/part_000
which is compose.js), together with proofs of the specification claims.

JavaScript values relevant to the container are modelled by `JSVal`;
JavaScript exceptions are modelled by the sum type `Except JsErr`.
Listeners are identified by natural numbers; what a listener's body does
when invoked is given by an environment `ListenerEnv` mapping each
listener id to a list of store operations (subscribe / unsubscribe /
dispatch) that the listener performs, each wrapped in a try-catch so that
a failing nested operation does not abort the notification pass.
Nested dispatch from a listener is interpreted with a fuel bound
(exhausted fuel models a JavaScript stack overflow, which the guarded
listener body swallows).

Array reference aliasing between currentListeners and nextListeners
(checked in the source via ===) is tracked explicitly by the `aliased`
flag; the in-place array mutations push and splice are modelled so that
when the two references are aliased a mutation of nextListeners also
changes currentListeners, exactly as in JavaScript.
-/

namespace ReadRedux

/-- Model of the JavaScript values the container manipulates: undefined,
null, booleans, numbers, strings, and plain objects as association lists. -/
inductive JSVal where
  | undefined
  | null
  | boolean (b : Bool)
  | num (n : Int)
  | str (s : String)
  | obj (fields : List (String × JSVal))

/-- The JavaScript exceptions thrown by the modelled code, one constructor
per throw site, plus `userRaised` for exceptions raised by user-supplied
reducers and `stackOverflow` for exhausted nested-dispatch fuel. -/
inductive JsErr where
  | actionsMustBePlainObjects
  | actionTypeUndefined
  | reducersMayNotDispatchActions
  | getStateWhileReducer
  | subscribeWhileReducer
  | unsubscribeWhileReducer
  | expectedReducerFn
  | expectedNextReducerFn
  | dispatchWhileConstructingMiddleware
  | stackOverflow
  | userRaised (msg : String)
  deriving DecidableEq

/-- Modelled from the spec: the repository imports utils/isPlainObject,
which is not among the provided sources; per the spec an action must be a
"plain structured record", so plainness of a `JSVal` is being an `obj`. -/
def isPlainObject : JSVal → Bool
  | .obj _ => true
  | _ => false

/-- The check typeof x === 'undefined' on a modelled value. -/
def isUndefined : JSVal → Bool
  | .undefined => true
  | _ => false

/-- Property access v[key] on a modelled value: looks the key up in a
plain object's fields and yields undefined for a missing key or a
non-object receiver. -/
def getProp (v : JSVal) (key : String) : JSVal :=
  match v with
  | .obj fields =>
    match fields.lookup key with
    | some x => x
    | none => .undefined
  | _ => .undefined

/-- A user-supplied reducer: (state, action) to next state, with
`Except.error` modelling a thrown exception. -/
abbrev Reducer := JSVal → JSVal → Except JsErr JSVal

/-- The mutable closure state of one store created by createStore:
currentReducer, currentState, currentListeners, nextListeners and
isDispatching, plus `aliased`, which records whether nextListeners and
currentListeners are the same array object (the === test of
ensureCanMutateNextListeners). -/
structure Store where
  currentReducer : Reducer
  currentState : JSVal
  currentListeners : List Nat
  nextListeners : List Nat
  aliased : Bool
  isDispatching : Bool

/-- ensureCanMutateNextListeners: if nextListeners === currentListeners,
replace nextListeners by a copy (currentListeners.slice()), so that the
two references are no longer aliased. -/
def ensureCanMutateNextListeners (s : Store) : Store :=
  if s.aliased then
    { s with nextListeners := s.currentListeners, aliased := false }
  else s

/-- nextListeners.push(listener): appends to nextListeners; if the two
registry references are aliased the in-place mutation is also visible
through currentListeners. -/
def pushNextListener (l : Nat) (s : Store) : Store :=
  let nl := s.nextListeners ++ [l]
  { s with nextListeners := nl
         , currentListeners := if s.aliased then nl else s.currentListeners }

/-- nextListeners.indexOf(listener): index of the first occurrence, or -1. -/
def jsIndexOf (l : Nat) (xs : List Nat) : Int :=
  match xs.findIdx? (fun x => x == l) with
  | some i => (i : Int)
  | none => -1

/-- nextListeners.splice(i, 1): removes one element at index i, with the
JavaScript convention that a negative index counts from the end; if the
registry references are aliased the mutation is also visible through
currentListeners. -/
def spliceOneNextListener (i : Int) (s : Store) : Store :=
  let len : Int := (s.nextListeners.length : Int)
  let eff : Nat := (if i < 0 then max (len + i) 0 else min i len).toNat
  let nl := s.nextListeners.eraseIdx eff
  { s with nextListeners := nl
         , currentListeners := if s.aliased then nl else s.currentListeners }

/-- getState(): throws while the reducer is executing, otherwise returns
currentState. -/
def getState (s : Store) : Except JsErr JSVal :=
  if s.isDispatching = true then .error .getStateWhileReducer
  else .ok s.currentState

/-- subscribe(listener): throws while the reducer is executing, otherwise
ensureCanMutateNextListeners and push the listener onto nextListeners.
Listeners are identified by numbers, so the typeof-function argument check
of the source is always satisfied in the model; the returned unsubscribe
closure is modelled separately by `unsubscribeHandle`. -/
def subscribe (l : Nat) (s : Store) : Except JsErr Store :=
  if s.isDispatching = true then .error .subscribeWhileReducer
  else .ok (pushNextListener l (ensureCanMutateNextListeners s))

/-- Calling a still-armed unsubscribe closure for listener l (its
isSubscribed flag true): throws while the reducer is executing, otherwise
ensureCanMutateNextListeners, then splice out nextListeners.indexOf(l). -/
def unsubscribeHandle (l : Nat) (s : Store) : Except JsErr Store :=
  if s.isDispatching = true then .error .unsubscribeWhileReducer
  else
    let s1 := ensureCanMutateNextListeners s
    .ok (spliceOneNextListener (jsIndexOf l s1.nextListeners) s1)

/-- One store operation performed from inside a listener body, each wrapped
in a try-catch by the listener: subscribe a listener, call an armed
unsubscribe handle, or dispatch an action. -/
inductive LCmd where
  | lsub (l : Nat)
  | lunsub (l : Nat)
  | ldispatch (a : JSVal)

/-- Assigns to each listener id the body it runs when notified. -/
abbrev ListenerEnv := Nat → List LCmd

/-- The type of the recursive dispatch entry point handed to the listener
interpreter (result of a nested store.dispatch, exceptions swallowed by
the listener's try-catch). -/
abbrev Go := Store → JSVal → Store

/-- The outcome of one dispatch call: the value returned or exception
thrown, the store's mutable state afterwards, and the ordered log of
listener ids invoked during the notification pass. -/
structure DOut where
  result : Except JsErr JSVal
  store : Store
  invoked : List Nat

/-- Runs one store operation from a listener body, swallowing exceptions
(the listener wraps each operation in try-catch). -/
def runCmd (go : Go) (s : Store) : LCmd → Store
  | .lsub l =>
    match subscribe l s with
    | .ok s1 => s1
    | .error _ => s
  | .lunsub l =>
    match unsubscribeHandle l s with
    | .ok s1 => s1
    | .error _ => s
  | .ldispatch a => go s a

/-- Runs a listener body: its store operations in order. -/
def runCmds (go : Go) (cmds : List LCmd) (s : Store) : Store :=
  cmds.foldl (fun t c => runCmd go t c) s

/-- The notification loop of dispatch: for each listener of the captured
snapshot array, in order, invoke the listener; returns the final store
and the log of invoked listener ids. The loop iterates over the snapshot
captured before the pass began — faithful to the source because every
in-place registry mutation is preceded by ensureCanMutateNextListeners,
so the captured array object is never mutated during the pass. -/
def notify (env : ListenerEnv) (go : Go) : List Nat → Store → Store × List Nat
  | [], s => (s, [])
  | l :: rest, s =>
    let s1 := runCmds go (env l) s
    let p := notify env go rest s1
    (p.1, l :: p.2)

/-- The body of dispatch(action), parameterised by the interpreter `go`
used for nested dispatch calls made by listeners: the three guard checks,
then the try/finally reducer call that sets and unconditionally clears
isDispatching, then the snapshot assignment
listeners = (currentListeners = nextListeners) and the notification loop,
finally returning the action. -/
def dispatchCore (env : ListenerEnv) (go : Go) (s : Store) (action : JSVal) : DOut :=
  if isPlainObject action = false then
    ⟨.error .actionsMustBePlainObjects, s, []⟩
  else if isUndefined (getProp action "type") = true then
    ⟨.error .actionTypeUndefined, s, []⟩
  else if s.isDispatching = true then
    ⟨.error .reducersMayNotDispatchActions, s, []⟩
  else
    let sMid := { s with isDispatching := true }
    match sMid.currentReducer sMid.currentState action with
    | .error e => ⟨.error e, { sMid with isDispatching := false }, []⟩
    | .ok st =>
      let s1 := { sMid with isDispatching := false, currentState := st }
      let listeners := s1.nextListeners
      let s2 := { s1 with currentListeners := listeners, aliased := true }
      let p := notify env go listeners s2
      ⟨.ok action, p.1, p.2⟩

/-- Fuel-indexed dispatch: nested dispatches from listener bodies consume
one unit of fuel; exhausted fuel models a stack overflow. -/
def dispatchF (env : ListenerEnv) : Nat → Store → JSVal → DOut
  | 0, s, _ => ⟨.error .stackOverflow, s, []⟩
  | fuel + 1, s, a =>
    dispatchCore env (fun t b => (dispatchF env fuel t b).store) s a

/-- The dispatch interpreter a listener's nested store.dispatch call uses
at a given remaining fuel. -/
def nestedGo (env : ListenerEnv) (fuel : Nat) : Go :=
  fun t b => (dispatchF env fuel t b).store

/-- dispatch(action) on a store, allowing at most `fuel` levels of nested
dispatch from listener bodies. -/
def dispatch (env : ListenerEnv) (fuel : Nat) (s : Store) (action : JSVal) : DOut :=
  dispatchF env (fuel + 1) s action

/-- Modelled from the spec: the repository imports utils/actionTypes,
which is not among the provided sources; per the spec the container uses
a reserved internal "init" action type, modelled as a fixed string. -/
def initActionType : String := "@@redux/INIT"

/-- Modelled from the spec: the reserved internal "replace" action type
from the missing utils/actionTypes module, modelled as a fixed string. -/
def replaceActionType : String := "@@redux/REPLACE"

/-- The action dispatched by createStore at construction. -/
def initAction : JSVal := .obj [("type", .str initActionType)]

/-- The action dispatched by replaceReducer. -/
def replaceAction : JSVal := .obj [("type", .str replaceActionType)]

/-- replaceReducer(nextReducer): throws if nextReducer is not a function
(modelled by `none`); otherwise assigns currentReducer = nextReducer and
dispatches the internal replace action. Returns the store's mutable state
after the call together with the undefined return value or the thrown
exception. -/
def replaceReducer (env : ListenerEnv) (fuel : Nat) (s : Store)
    (nextReducer : Option Reducer) : Except JsErr Unit × Store :=
  match nextReducer with
  | none => (.error .expectedNextReducerFn, s)
  | some r =>
    let s1 := { s with currentReducer := r }
    let out := dispatch env fuel s1 replaceAction
    (out.result.map (fun _ => ()), out.store)

/-- An enhancer: receives the construction arguments and produces the
store itself (the source passes createStore to the enhancer; the claims
only concern construction without one, so the enhancer here is an opaque
replacement construction function). -/
abbrev Enhancer := Option Reducer → JSVal → Except JsErr Store

/-- createStore(reducer, preloadedState, enhancer): if an enhancer is
given, control is handed to it; otherwise the reducer must be a function
(modelled by `some`), the closure variables are initialised
(currentListeners = nextListeners = [] aliased, isDispatching = false,
currentState = preloadedState) and one internal init action is
dispatched before the store is returned. The source's positional
shuffle that treats a function-typed preloadedState as the enhancer is
not representable because a modelled JSVal is never a function. -/
def createStore (env : ListenerEnv) (fuel : Nat) (reducer : Option Reducer)
    (preloadedState : JSVal) (enhancer : Option Enhancer) : Except JsErr Store :=
  match enhancer with
  | some enh => enh reducer preloadedState
  | none =>
    match reducer with
    | none => .error .expectedReducerFn
    | some r =>
      let s0 : Store :=
        { currentReducer := r
        , currentState := preloadedState
        , currentListeners := []
        , nextListeners := []
        , aliased := true
        , isDispatching := false }
      let out := dispatch env fuel s0 initAction
      match out.result with
      | .error e => .error e
      | .ok _ => .ok out.store

/-- compose(...funcs) from src/unnamed/part_000: zero functions yield the
identity arrow, one function is returned unchanged, and otherwise
funcs.reduce((a, b) => (...args) => a(b(...args))), which is a left fold
of function composition over the tail with the head as the accumulator.
The composed chain is unary, so the model fixes one value type. -/
def compose {α : Type u} (funcs : List (α → α)) : α → α :=
  match funcs with
  | [] => fun arg => arg
  | [f] => f
  | f :: fs => fs.foldl (fun a b => fun x => a (b x)) f

/-- The middlewareAPI record of applyMiddleware: getState plus a dispatch
forwarder. -/
structure MWApi (σ δ : Type) where
  getState : Unit → σ
  dispatch : δ

/-- A middleware: receives the capability object, then the next dispatch
in the chain, and yields a wrapped dispatch from actions α to results γ
(a thrown exception modelled by Except.error). -/
abbrev Middleware (σ α γ : Type) :=
  MWApi σ (α → Except JsErr γ) → (α → Except JsErr γ) → (α → Except JsErr γ)

/-- The capability object as it stands while the middleware factories are
being instantiated: getState is the base store's getState, and the
dispatch forwarder reaches the placeholder installed by applyMiddleware,
which throws a construction-ordering error. (After assembly the source
rebinds the local dispatch variable to the composed dispatch; the claims
concern the assembly-time view and the next-argument chain, both of
which this definition captures.) -/
def constructionAPI {σ α γ : Type} (storeGetState : Unit → σ) :
    MWApi σ (α → Except JsErr γ) :=
  { getState := storeGetState
  , dispatch := fun _ => .error .dispatchWhileConstructingMiddleware }

/-- applyMiddleware(...middlewares) applied to the base store: installs
the throwing placeholder dispatch, hands the capability object to every
middleware factory to build the chain, and produces
compose(...chain)(store.dispatch), the store's replacement dispatch. -/
def applyMiddleware {σ α γ : Type} (middlewares : List (Middleware σ α γ))
    (storeGetState : Unit → σ) (storeDispatch : α → Except JsErr γ) :
    α → Except JsErr γ :=
  let middlewareAPI := constructionAPI (σ := σ) (α := α) (γ := γ) storeGetState
  let chain := middlewares.map (fun middleware => middleware middlewareAPI)
  compose chain storeDispatch

/-- A middleware factory that invokes the capability object's dispatch
forwarder once during pipeline assembly, on a probe action, and bakes
the outcome into its wrapper. -/
def probeMiddleware {σ α γ : Type} (probeAct : α) : Middleware σ α γ :=
  fun api =>
    let r := api.dispatch probeAct
    fun _next => fun _a => r

/-- Concrete reducer for witnesses: increments a numeric state. -/
def rInc : Reducer := fun st _ =>
  match st with
  | .num n => .ok (.num (n + 1))
  | _ => .ok (.num 0)

/-- Concrete reducer for witnesses: constantly 42. -/
def rConst : Reducer := fun _ _ => .ok (.num 42)

/-- Concrete reducer for witnesses: establishes numeric state 0 from
undefined and is the identity otherwise. -/
def rZero : Reducer := fun st _ =>
  match st with
  | .undefined => .ok (.num 0)
  | v => .ok v

/-- Concrete reducer for witnesses: throws on actions of type BOOM and is
the identity otherwise. -/
def rBoom : Reducer := fun st a =>
  match getProp a "type" with
  | .str t => if t = "BOOM" then .error (.userRaised "boom") else .ok st
  | _ => .ok st

/-- A well-formed concrete action. -/
def actInc : JSVal := .obj [("type", .str "INC")]

/-- A concrete action on which rBoom throws. -/
def actBoom : JSVal := .obj [("type", .str "BOOM")]

/-- Listener environment: listener 0 dispatches actInc from inside its
body; every other listener does nothing. -/
def envDispatching : ListenerEnv := fun n =>
  if n = 0 then [.ldispatch actInc] else []

/-- Listener environment: listener 1 subscribes the new listener 2 from
inside its body; every other listener does nothing. -/
def envSubscribing : ListenerEnv := fun n =>
  if n = 1 then [.lsub 2] else []

/-- Listener environment: every listener body is empty. -/
def envPure : ListenerEnv := fun _ => []

/-- Concrete store for the nested-dispatch counterexample: reducer rInc,
numeric state 0, listener 0 registered, registry references aliased, not
dispatching. -/
def storeL0 : Store :=
  { currentReducer := rInc, currentState := .num 0
  , currentListeners := [0], nextListeners := [0]
  , aliased := true, isDispatching := false }

/-- Concrete store for the snapshot-isolation witness: reducer rInc,
listener 1 registered. -/
def storeL1 : Store :=
  { currentReducer := rInc, currentState := .num 0
  , currentListeners := [1], nextListeners := [1]
  , aliased := true, isDispatching := false }

/-- Concrete store for the dispatch-postcondition witness: reducer rInc,
pure observer listener 5 registered. -/
def storeObs : Store :=
  { currentReducer := rInc, currentState := .num 0
  , currentListeners := [5], nextListeners := [5]
  , aliased := true, isDispatching := false }

/-- Concrete store whose reducer throws on actBoom. -/
def storeBoom : Store :=
  { currentReducer := rBoom, currentState := .num 7
  , currentListeners := [4], nextListeners := [4]
  , aliased := true, isDispatching := false }

/-- Concrete store for the reducer-replacement witness: reducer rInc,
numeric state 3, pure observer listener 7 registered. -/
def storeRep : Store :=
  { currentReducer := rInc, currentState := .num 3
  , currentListeners := [7], nextListeners := [7]
  , aliased := true, isDispatching := false }

/-- Concrete store captured in the middle of a reducer invocation
(isDispatching is set). -/
def storeMidReducer : Store :=
  { currentReducer := rInc, currentState := .num 5
  , currentListeners := [9], nextListeners := [9]
  , aliased := true, isDispatching := true }

/-! ## Helper lemmas -/

/-- The notification pass logs exactly the listeners of the snapshot it
was given, in order. -/
theorem notify_invoked (env : ListenerEnv) (go : Go) :
    ∀ (ls : List Nat) (s : Store), (notify env go ls s).2 = ls := by
  intro ls
  induction ls with
  | nil => intro s; rfl
  | cons l rest ih => intro s; simp [notify, ih]

/-- A notification pass over listeners with empty bodies leaves the store
unchanged. -/
theorem notify_pure (env : ListenerEnv) (go : Go) :
    ∀ (ls : List Nat) (s : Store), (∀ l ∈ ls, env l = []) →
      notify env go ls s = (s, ls) := by
  intro ls
  induction ls with
  | nil => intro s _; rfl
  | cons l rest ih =>
    intro s h
    have hl : env l = [] := h l (by simp)
    have hr : ∀ x ∈ rest, env x = [] := fun x hx => h x (by simp [hx])
    simp [notify, runCmds, hl, ih _ hr]

/-- Unfolding dispatch one step: the entry point runs dispatchCore with
the fuel-bounded nested interpreter. -/
theorem dispatch_def (env : ListenerEnv) (fuel : Nat) (s : Store) (a : JSVal) :
    dispatch env fuel s a = dispatchCore env (nestedGo env fuel) s a := rfl

/-- dispatchCore on a non-plain action: throws, store untouched, nobody
notified. -/
theorem dispatchCore_notPlain (env : ListenerEnv) (go : Go) (s : Store) (a : JSVal)
    (h1 : isPlainObject a = false) :
    dispatchCore env go s a = ⟨.error .actionsMustBePlainObjects, s, []⟩ := by
  simp [dispatchCore, h1]

/-- dispatchCore on an action with an undefined type: throws, store
untouched, nobody notified. -/
theorem dispatchCore_noType (env : ListenerEnv) (go : Go) (s : Store) (a : JSVal)
    (h1 : isPlainObject a = true)
    (h2 : isUndefined (getProp a "type") = true) :
    dispatchCore env go s a = ⟨.error .actionTypeUndefined, s, []⟩ := by
  simp [dispatchCore, h1, h2]

/-- dispatchCore while a reducer is executing: throws the no-nested-dispatch
error, store untouched, nobody notified. -/
theorem dispatchCore_reentrant (env : ListenerEnv) (go : Go) (s : Store) (a : JSVal)
    (h1 : isPlainObject a = true)
    (h2 : isUndefined (getProp a "type") = false)
    (h3 : s.isDispatching = true) :
    dispatchCore env go s a = ⟨.error .reducersMayNotDispatchActions, s, []⟩ := by
  simp [dispatchCore, h1, h2, h3]

/-- dispatchCore when the reducer throws: the exception propagates, the
stored state and both listener lists keep their pre-dispatch values, the
flag is cleared, and nobody is notified. -/
theorem dispatchCore_reducerFail (env : ListenerEnv) (go : Go) (s : Store)
    (a : JSVal) (e : JsErr)
    (h1 : isPlainObject a = true)
    (h2 : isUndefined (getProp a "type") = false)
    (h3 : s.isDispatching = false)
    (h4 : s.currentReducer s.currentState a = .error e) :
    dispatchCore env go s a = ⟨.error e, s, []⟩ := by
  obtain ⟨red, st0, cur, next, al, disp⟩ := s
  simp only at h3 h4
  subst h3
  simp [dispatchCore, h1, h2, h4]

/-- dispatchCore when every guard passes and the reducer returns: the
stored state becomes the reducer's result, the snapshot assignment makes
currentListeners the pre-dispatch nextListeners, the notification pass
runs over that snapshot, and the action itself is returned. -/
theorem dispatchCore_ok (env : ListenerEnv) (go : Go) (s : Store) (a st : JSVal)
    (h1 : isPlainObject a = true)
    (h2 : isUndefined (getProp a "type") = false)
    (h3 : s.isDispatching = false)
    (h4 : s.currentReducer s.currentState a = .ok st) :
    dispatchCore env go s a =
      ⟨.ok a,
       (notify env go s.nextListeners
         { s with currentState := st, currentListeners := s.nextListeners
                , aliased := true, isDispatching := false }).1,
       (notify env go s.nextListeners
         { s with currentState := st, currentListeners := s.nextListeners
                , aliased := true, isDispatching := false }).2⟩ := by
  obtain ⟨red, st0, cur, next, al, disp⟩ := s
  simp only at h3 h4
  subst h3
  simp [dispatchCore, h1, h2, h4]

@[simp]
theorem ensure_isDispatching (s : Store) :
    (ensureCanMutateNextListeners s).isDispatching = s.isDispatching := by
  unfold ensureCanMutateNextListeners
  split <;> rfl

@[simp]
theorem push_isDispatching (l : Nat) (s : Store) :
    (pushNextListener l s).isDispatching = s.isDispatching := rfl

@[simp]
theorem splice_isDispatching (i : Int) (s : Store) :
    (spliceOneNextListener i s).isDispatching = s.isDispatching := rfl

/-- A single listener-body operation never changes the dispatching flag,
provided nested dispatch does not (exceptions are swallowed and the
successful branches of subscribe and unsubscribe leave the flag alone). -/
theorem runCmd_flag (go : Go)
    (hgo : ∀ t b, (go t b).isDispatching = t.isDispatching)
    (s : Store) (c : LCmd) :
    (runCmd go s c).isDispatching = s.isDispatching := by
  cases c with
  | lsub l =>
    by_cases h : s.isDispatching = true
    · simp [runCmd, subscribe, h]
    · simp [runCmd, subscribe, h]
  | lunsub l =>
    by_cases h : s.isDispatching = true
    · simp [runCmd, unsubscribeHandle, h]
    · simp [runCmd, unsubscribeHandle, h]
  | ldispatch a => exact hgo s a

/-- A whole listener body never changes the dispatching flag. -/
theorem runCmds_flag (go : Go)
    (hgo : ∀ t b, (go t b).isDispatching = t.isDispatching)
    (cmds : List LCmd) :
    ∀ s : Store, (runCmds go cmds s).isDispatching = s.isDispatching := by
  induction cmds with
  | nil => intro s; rfl
  | cons c rest ih =>
    intro s
    have : runCmds go (c :: rest) s = runCmds go rest (runCmd go s c) := rfl
    rw [this, ih, runCmd_flag go hgo]

/-- The notification pass never changes the dispatching flag. -/
theorem notify_flag (env : ListenerEnv) (go : Go)
    (hgo : ∀ t b, (go t b).isDispatching = t.isDispatching) :
    ∀ (ls : List Nat) (s : Store),
      ((notify env go ls s).1).isDispatching = s.isDispatching := by
  intro ls
  induction ls with
  | nil => intro s; rfl
  | cons l rest ih =>
    intro s
    simp [notify, ih, runCmds_flag go hgo]

/-- dispatchCore leaves the dispatching flag as it found it on every path
(in particular the finally block clears it after the reducer). -/
theorem dispatchCore_flag (env : ListenerEnv) (go : Go)
    (hgo : ∀ t b, (go t b).isDispatching = t.isDispatching)
    (s : Store) (a : JSVal) :
    ((dispatchCore env go s a).store).isDispatching = s.isDispatching := by
  by_cases h1 : isPlainObject a = false
  · rw [dispatchCore_notPlain env go s a h1]
  · rw [Bool.not_eq_false] at h1
    by_cases h2 : isUndefined (getProp a "type") = true
    · rw [dispatchCore_noType env go s a h1 h2]
    · rw [Bool.not_eq_true] at h2
      by_cases h3 : s.isDispatching = true
      · rw [dispatchCore_reentrant env go s a h1 h2 h3]
      · rw [Bool.not_eq_true] at h3
        cases h4 : s.currentReducer s.currentState a with
        | error e => rw [dispatchCore_reducerFail env go s a e h1 h2 h3 h4, h3]
        | ok st =>
          rw [dispatchCore_ok env go s a st h1 h2 h3 h4]
          exact (notify_flag env go hgo _ _).trans h3.symm

/-- The fuel-bounded dispatch leaves the dispatching flag as it found it. -/
theorem dispatchF_flag (env : ListenerEnv) :
    ∀ (fuel : Nat) (s : Store) (a : JSVal),
      ((dispatchF env fuel s a).store).isDispatching = s.isDispatching := by
  intro fuel
  induction fuel with
  | zero => intro s a; rfl
  | succ n ih =>
    intro s a
    exact dispatchCore_flag env (nestedGo env n) (fun t b => ih t b) s a

/-- dispatch leaves the dispatching flag as it found it. -/
theorem dispatch_flag (env : ListenerEnv) (fuel : Nat) (s : Store) (a : JSVal) :
    ((dispatch env fuel s a).store).isDispatching = s.isDispatching :=
  dispatchF_flag env (fuel + 1) s a

/-- Folding composition from the left commutes with an outer composed
pair (associativity of function composition). -/
theorem foldl_comp {α : Type u} :
    ∀ (l : List (α → α)) (a b : α → α),
      l.foldl (fun f g => fun x => f (g x)) (fun x => a (b x)) =
        fun x => a (l.foldl (fun f g => fun x => f (g x)) b x) := by
  intro l
  induction l with
  | nil => intro a b; rfl
  | cons c l ih => intro a b; exact ih a (fun x => b (c x))

/-- compose peels off its leftmost function as the outermost wrapper. -/
theorem compose_cons {α : Type u} (f : α → α) (fs : List (α → α)) :
    compose (f :: fs) = fun x => f (compose fs x) := by
  cases fs with
  | nil => rfl
  | cons g gs =>
    cases gs with
    | nil => rfl
    | cons h hs => exact foldl_comp (h :: hs) f g

/-- applyMiddleware peels off its leftmost middleware as the outermost
wrapper of the composed dispatch. -/
theorem applyMiddleware_cons {σ α γ : Type} (m : Middleware σ α γ)
    (ms : List (Middleware σ α γ)) (g : Unit → σ)
    (base : α → Except JsErr γ) :
    applyMiddleware (m :: ms) g base =
      m (constructionAPI g) (applyMiddleware ms g base) := by
  show compose ((m :: ms).map (fun middleware => middleware (constructionAPI g))) base = _
  rw [List.map_cons, compose_cons]
  rfl

/-- A successful dispatch whose snapshot listeners all have empty bodies:
the final store is the pre-notification store itself. -/
theorem dispatch_ok_pure (env : ListenerEnv) (fuel : Nat) (s : Store)
    (a st : JSVal)
    (h1 : isPlainObject a = true)
    (h2 : isUndefined (getProp a "type") = false)
    (h3 : s.isDispatching = false)
    (h4 : s.currentReducer s.currentState a = .ok st)
    (hpure : ∀ l ∈ s.nextListeners, env l = []) :
    dispatch env fuel s a =
      ⟨.ok a,
       { s with currentState := st, currentListeners := s.nextListeners
              , aliased := true, isDispatching := false },
       s.nextListeners⟩ := by
  rw [dispatch_def, dispatchCore_ok env _ s a st h1 h2 h3 h4,
      notify_pure env _ _ _ hpure]

/-! ## Claim theorems -/

/-- Claim C6: composing zero functions yields the identity function for
all inputs; composing a single-element list [f] yields exactly f itself;
and for every three functions f, g, h and argument x, the composition of
[f, g, h] applied to x equals f (g (h x)) — right-to-left composition. -/
theorem compose_contract {α : Type} :
    (∀ x : α, compose ([] : List (α → α)) x = x)
    ∧ (∀ f : α → α, compose [f] = f)
    ∧ (∀ (f g h : α → α) (x : α), compose [f, g, h] x = f (g (h x))) :=
  ⟨fun _ => rfl, fun _ => rfl, fun _ _ _ _ => rfl⟩

/-- Claim C4: the pipeline builder makes the leftmost middleware the
outermost wrapper of dispatch: prepending a middleware wraps the rest of
the chain, the empty chain is the base store dispatch itself (so the
rightmost middleware's next argument is the base dispatch), and for
middleware [A, B] the final dispatch is A's wrapper applied to B's
wrapper applied to the base dispatch — a dispatched action reaches A
before B on the way in and A receives B's return value on the way out. -/
theorem middleware_ordering {σ α γ : Type} :
    (∀ (m : Middleware σ α γ) (ms : List (Middleware σ α γ))
       (g : Unit → σ) (base : α → Except JsErr γ),
       applyMiddleware (m :: ms) g base =
         m (constructionAPI g) (applyMiddleware ms g base))
    ∧ (∀ (g : Unit → σ) (base : α → Except JsErr γ),
       applyMiddleware ([] : List (Middleware σ α γ)) g base = base)
    ∧ (∀ (A B : Middleware σ α γ) (g : Unit → σ) (base : α → Except JsErr γ),
       applyMiddleware [A, B] g base =
         A (constructionAPI g) (B (constructionAPI g) base)) := by
  refine ⟨applyMiddleware_cons, fun g base => rfl, fun A B g base => ?_⟩
  rw [applyMiddleware_cons, applyMiddleware_cons]
  rfl

/-- Claim C7: during pipeline assembly the capability object handed to
every middleware factory forwards dispatch to the placeholder, which
fails with the construction-ordering error; applyMiddleware instantiates
every factory with exactly that capability object; and a factory that
does invoke the forwarder during assembly (probeMiddleware) observes the
error whatever the base dispatch is, so the invocation never reaches the
base dispatch. -/
theorem construction_dispatch_guard {σ α γ : Type} :
    (∀ (g : Unit → σ) (a : α),
       (constructionAPI (σ := σ) (α := α) (γ := γ) g).dispatch a =
         .error .dispatchWhileConstructingMiddleware)
    ∧ (∀ (ms : List (Middleware σ α γ)) (g : Unit → σ)
         (base : α → Except JsErr γ),
       applyMiddleware ms g base =
         compose (ms.map (fun m => m (constructionAPI g))) base)
    ∧ (∀ (p : α) (g : Unit → σ) (base : α → Except JsErr γ) (a : α),
       applyMiddleware [probeMiddleware p] g base a =
         .error .dispatchWhileConstructingMiddleware) :=
  ⟨fun _ _ => rfl, fun _ _ _ => rfl, fun _ _ _ _ => rfl⟩

/-- Claim C1: listener snapshot isolation — for a transition T the
listeners invoked during T's notification pass are exactly (and in
registration order) those registered strictly before T's dispatch call
began; a listener l2 not registered before T is not called during T; and
if l2 is registered when T's dispatch returns (for instance because a
notified listener subscribed it), then the next transition started from
the resulting store invokes l2. -/
theorem listener_snapshot_isolation (env : ListenerEnv) (fuel : Nat)
    (s : Store) (a a2 st st2 : JSVal) (l2 : Nat)
    (h1 : isPlainObject a = true)
    (h2 : isUndefined (getProp a "type") = false)
    (h3 : s.isDispatching = false)
    (h4 : s.currentReducer s.currentState a = .ok st) :
    (dispatch env fuel s a).invoked = s.nextListeners
    ∧ (l2 ∉ s.nextListeners → l2 ∉ (dispatch env fuel s a).invoked)
    ∧ (isPlainObject a2 = true → isUndefined (getProp a2 "type") = false →
       (dispatch env fuel s a).store.currentReducer
         (dispatch env fuel s a).store.currentState a2 = .ok st2 →
       l2 ∈ (dispatch env fuel s a).store.nextListeners →
       l2 ∈ (dispatch env fuel (dispatch env fuel s a).store a2).invoked) := by
  have hinv : (dispatch env fuel s a).invoked = s.nextListeners := by
    rw [dispatch_def, dispatchCore_ok env _ s a st h1 h2 h3 h4]
    exact notify_invoked env _ _ _
  refine ⟨hinv, ?_, ?_⟩
  · intro hn
    rw [hinv]
    exact hn
  · intro h5 h6 h7 hmem
    have hflag : (dispatch env fuel s a).store.isDispatching = false := by
      rw [dispatch_flag env fuel s a]
      exact h3
    have hnext : (dispatch env fuel (dispatch env fuel s a).store a2).invoked =
        (dispatch env fuel s a).store.nextListeners := by
      rw [dispatch_def, dispatchCore_ok env _ _ a2 st2 h5 h6 hflag h7]
      exact notify_invoked env _ _ _
    rw [hnext]
    exact hmem

/-- Witness for C1: a store with listener 1 registered, whose body
subscribes the new listener 2 when notified. The first transition
invokes exactly [1]; listener 2 is not called during it; the next
transition from the resulting store does invoke listener 2. -/
theorem listener_snapshot_isolation_witness :
    (dispatch envSubscribing 1 storeL1 actInc).invoked = [1]
    ∧ 2 ∉ (dispatch envSubscribing 1 storeL1 actInc).invoked
    ∧ 2 ∈ (dispatch envSubscribing 1
        (dispatch envSubscribing 1 storeL1 actInc).store actInc).invoked := by
  obtain ⟨p1, p2, p3⟩ := listener_snapshot_isolation envSubscribing 1 storeL1
      actInc actInc (JSVal.num 1) (JSVal.num 2) 2 rfl rfl rfl rfl
  exact ⟨p1, p2 (by decide), p3 rfl rfl rfl (by decide)⟩

/-- Claim C2: successful dispatch postcondition — for a plain action with
a defined type, dispatched while no transition is in progress, with a
reducer that returns normally: dispatch returns the very same action,
invokes every listener of the pre-dispatch registry exactly once in
registration order, and its final store is the notification pass run on
the store whose state was set to the reducer's result and whose current
snapshot is the pre-dispatch registry; when the snapshot listeners are
pure observers the stored state after dispatch is exactly the reducer's
result. (That listeners are invoked with no arguments is built into the
model: a listener body receives nothing.) -/
theorem dispatch_success_postcondition (env : ListenerEnv) (fuel : Nat)
    (s : Store) (a st : JSVal)
    (h1 : isPlainObject a = true)
    (h2 : isUndefined (getProp a "type") = false)
    (h3 : s.isDispatching = false)
    (h4 : s.currentReducer s.currentState a = .ok st) :
    (dispatch env fuel s a).result = .ok a
    ∧ (dispatch env fuel s a).invoked = s.nextListeners
    ∧ (dispatch env fuel s a).store =
        (notify env (nestedGo env fuel) s.nextListeners
          { s with currentState := st, currentListeners := s.nextListeners
                 , aliased := true, isDispatching := false }).1
    ∧ ((∀ l ∈ s.nextListeners, env l = []) →
        (dispatch env fuel s a).store.currentState = st) := by
  have hd := dispatchCore_ok env (nestedGo env fuel) s a st h1 h2 h3 h4
  refine ⟨?_, ?_, ?_, ?_⟩
  · rw [dispatch_def, hd]
  · rw [dispatch_def, hd]
    exact notify_invoked env _ _ _
  · rw [dispatch_def, hd]
  · intro hp
    rw [dispatch_def, hd]
    show (notify env (nestedGo env fuel) s.nextListeners _).1.currentState = st
    rw [notify_pure env _ _ _ hp]

/-- Witness for C2: a store with the pure observer listener 5 and the
incrementing reducer; dispatching actInc returns actInc, invokes exactly
[5], and stores numeric state 1. -/
theorem dispatch_success_postcondition_witness :
    (dispatch envPure 1 storeObs actInc).result = .ok actInc
    ∧ (dispatch envPure 1 storeObs actInc).invoked = [5]
    ∧ (dispatch envPure 1 storeObs actInc).store =
        (notify envPure (nestedGo envPure 1) [5]
          { storeObs with currentState := .num 1, currentListeners := [5]
                        , aliased := true, isDispatching := false }).1
    ∧ (dispatch envPure 1 storeObs actInc).store.currentState = .num 1 := by
  obtain ⟨p1, p2, p3, p4⟩ := dispatch_success_postcondition envPure 1 storeObs
      actInc (JSVal.num 1) rfl rfl rfl rfl
  exact ⟨p1, p2, p3, p4 (fun _ _ => rfl)⟩

/-- Claim C3: reducer-failure atomicity — when the reducer raises, the
exception propagates to the dispatch caller, the store's mutable state
(stored state, both listener lists, cleared flag) is exactly its
pre-dispatch value, no listener is notified, and a subsequent
well-formed dispatch on the same container succeeds. -/
theorem reducer_failure_atomicity (env : ListenerEnv) (fuel : Nat)
    (s : Store) (a : JSVal) (e : JsErr)
    (h1 : isPlainObject a = true)
    (h2 : isUndefined (getProp a "type") = false)
    (h3 : s.isDispatching = false)
    (h4 : s.currentReducer s.currentState a = .error e) :
    dispatch env fuel s a = ⟨.error e, s, []⟩
    ∧ ∀ (a2 st2 : JSVal), isPlainObject a2 = true →
        isUndefined (getProp a2 "type") = false →
        s.currentReducer s.currentState a2 = .ok st2 →
        (dispatch env fuel s a2).result = .ok a2 := by
  constructor
  · rw [dispatch_def]
    exact dispatchCore_reducerFail env _ s a e h1 h2 h3 h4
  · intro a2 st2 h5 h6 h7
    rw [dispatch_def, dispatchCore_ok env _ s a2 st2 h5 h6 h3 h7]

/-- Witness for C3: the rBoom reducer throws on actBoom; dispatching it
leaves the store exactly as it was and notifies nobody, and a subsequent
dispatch of the well-formed actInc on the same store succeeds. -/
theorem reducer_failure_atomicity_witness :
    dispatch envPure 1 storeBoom actBoom =
      ⟨.error (.userRaised "boom"), storeBoom, []⟩
    ∧ (dispatch envPure 1 storeBoom actInc).result = .ok actInc := by
  obtain ⟨p1, p2⟩ := reducer_failure_atomicity envPure 1 storeBoom actBoom
      (.userRaised "boom") rfl rfl rfl rfl
  exact ⟨p1, p2 actInc (.num 7) rfl rfl rfl⟩

/-- Claim C8: replaceReducer fails with the invalid-argument error on a
non-callable argument, leaving the store (its active reducer included)
unchanged; on a callable r2 it succeeds, the active reducer is r2
afterwards, the stored state read through getState is r2 applied to the
prior state and the internal replace action — with no explicit dispatch
by the caller — and the subscriber registry is preserved. -/
theorem replaceReducer_spec (env : ListenerEnv) (fuel : Nat) (s : Store)
    (r2 : Reducer) (st2 : JSVal)
    (hpure : ∀ l ∈ s.nextListeners, env l = [])
    (h3 : s.isDispatching = false)
    (h4 : r2 s.currentState replaceAction = .ok st2) :
    replaceReducer env fuel s none = (.error .expectedNextReducerFn, s)
    ∧ (replaceReducer env fuel s (some r2)).1 = .ok ()
    ∧ (replaceReducer env fuel s (some r2)).2.currentReducer = r2
    ∧ getState (replaceReducer env fuel s (some r2)).2 = .ok st2
    ∧ (replaceReducer env fuel s (some r2)).2.nextListeners = s.nextListeners := by
  have hd := dispatch_ok_pure env fuel { s with currentReducer := r2 }
      replaceAction st2 rfl rfl h3 h4 hpure
  have key : replaceReducer env fuel s (some r2) =
      (.ok (),
       { s with
           currentReducer := r2, currentState := st2,
           currentListeners := s.nextListeners, aliased := true,
           isDispatching := false }) := by
    show ((dispatch env fuel { s with currentReducer := r2 } replaceAction).result.map
            (fun _ => ()),
          (dispatch env fuel { s with currentReducer := r2 } replaceAction).store) = _
    rw [hd]
    rfl
  rw [key]
  exact ⟨rfl, rfl, rfl, rfl, rfl⟩

/-- Witness for C8: replacing the reducer of a store holding numeric
state 3 by the constant-42 reducer; the non-callable argument is
rejected with the store unchanged, and after the successful replacement
the active reducer is the new one, getState yields 42 and listener 7 is
still registered. -/
theorem replaceReducer_spec_witness :
    replaceReducer envPure 1 storeRep none = (.error .expectedNextReducerFn, storeRep)
    ∧ (replaceReducer envPure 1 storeRep (some rConst)).1 = .ok ()
    ∧ (replaceReducer envPure 1 storeRep (some rConst)).2.currentReducer = rConst
    ∧ getState (replaceReducer envPure 1 storeRep (some rConst)).2 = .ok (.num 42)
    ∧ (replaceReducer envPure 1 storeRep (some rConst)).2.nextListeners = [7] :=
  replaceReducer_spec envPure 1 storeRep rConst (.num 42) (fun _ _ => rfl) rfl rfl

/-- Claim C9: constructing a container from a callable reducer without an
enhancer and without preloaded state performs exactly one internal init
transition and returns the store whose state is the reducer applied to
undefined and the init action; reading that store yields that state. -/
theorem createStore_init (env : ListenerEnv) (fuel : Nat) (r : Reducer)
    (st0 : JSVal)
    (h : r JSVal.undefined initAction = .ok st0) :
    createStore env fuel (some r) JSVal.undefined none =
      .ok { currentReducer := r, currentState := st0, currentListeners := []
          , nextListeners := [], aliased := true, isDispatching := false }
    ∧ ∀ s : Store, createStore env fuel (some r) JSVal.undefined none = .ok s →
        getState s = .ok st0 := by
  have hd := dispatch_ok_pure env fuel
      ⟨r, JSVal.undefined, [], [], true, false⟩ initAction st0 rfl rfl rfl h
      (fun l hl => absurd hl (List.not_mem_nil l))
  have key : createStore env fuel (some r) JSVal.undefined none =
      .ok { currentReducer := r, currentState := st0, currentListeners := []
          , nextListeners := [], aliased := true, isDispatching := false } := by
    show (match (dispatch env fuel ⟨r, JSVal.undefined, [], [], true, false⟩
            initAction).result with
          | .error e => Except.error e
          | .ok _ => Except.ok (dispatch env fuel
              ⟨r, JSVal.undefined, [], [], true, false⟩ initAction).store) = _
    rw [hd]
  refine ⟨key, ?_⟩
  intro s hs
  rw [key] at hs
  injection hs with hs
  rw [← hs]
  rfl

/-- Witness for C9: constructing from the rZero reducer yields the store
whose state is rZero undefined initAction, namely numeric 0. -/
theorem createStore_init_witness :
    createStore envPure 1 (some rZero) JSVal.undefined none =
      .ok { currentReducer := rZero, currentState := .num 0, currentListeners := []
          , nextListeners := [], aliased := true, isDispatching := false } :=
  (createStore_init envPure 1 rZero (.num 0) rfl).1

/-- Claim C10: calling replaceReducer with a callable nextReducer while
the Dispatching Flag is set throws the no-nested-dispatch error raised
by the internal replace transition, yet the active reducer has already
been swapped to nextReducer before the throw, and nothing else of the
store changes — the swap persists while no replace transition runs. -/
theorem replaceReducer_during_reducer (env : ListenerEnv) (fuel : Nat)
    (s : Store) (r2 : Reducer)
    (h : s.isDispatching = true) :
    replaceReducer env fuel s (some r2) =
      (.error .reducersMayNotDispatchActions, { s with currentReducer := r2 }) := by
  have hd := dispatchCore_reentrant env (nestedGo env fuel)
      { s with currentReducer := r2 } replaceAction rfl rfl h
  show ((dispatch env fuel { s with currentReducer := r2 } replaceAction).result.map
          (fun _ => ()),
        (dispatch env fuel { s with currentReducer := r2 } replaceAction).store) = _
  rw [dispatch_def, hd]
  rfl

/-- Witness for C10: replacing the reducer of a store captured while its
reducer is executing throws the no-nested-dispatch error, with the
reducer swap already persisted and the rest of the store untouched. -/
theorem replaceReducer_during_reducer_witness :
    replaceReducer envPure 1 storeMidReducer (some rConst) =
      (.error .reducersMayNotDispatchActions,
       { currentReducer := rConst, currentState := .num 5, currentListeners := [9]
       , nextListeners := [9], aliased := true, isDispatching := true }) :=
  replaceReducer_during_reducer envPure 1 storeMidReducer rConst rfl

/-- Counterexample to C5 as stated: the claim requires every dispatch
issued synchronously inside an outer dispatch — including from a
notified listener — to fail with an invalid-call-context error. In
storeL0, listener 0 calls store.dispatch(actInc) from inside its body.
During the notification pass the dispatching flag has already been
cleared (the finally block runs before the pass), so the nested dispatch
passes every guard and runs the reducer: starting from numeric state 0,
the outer reducer call yields 1 and the listener's nested dispatch
yields 2, and the outer dispatch still returns the action normally.
Final state 2 shows the nested call reached the reducer instead of
failing, refuting the claim at this concrete input. -/
theorem nested_dispatch_from_listener_succeeds :
    (dispatch envDispatching 1 storeL0 actInc).result = .ok actInc
    ∧ (dispatch envDispatching 1 storeL0 actInc).store.currentState = JSVal.num 2
    ∧ (dispatch envDispatching 1 storeL0 actInc).invoked = [0] :=
  ⟨rfl, rfl, rfl⟩

/-- Claim C5 (amended): dispatch fails exactly when the action is not a
plain record, or its type is undefined, or the Dispatching Flag is set
(a transition's reducer is executing), or the reducer itself raises;
every failure leaves the stored state and both listener lists unchanged
and notifies no listener; and a dispatch issued while the flag is set —
i.e. from within the reducer of an outer dispatch — fails with the
no-nested-dispatch error. A dispatch issued from a notified listener
runs after the flag has been cleared and is not rejected. -/
theorem dispatch_raises_iff (env : ListenerEnv) (fuel : Nat) (s : Store)
    (a : JSVal) :
    ((∃ e, (dispatch env fuel s a).result = .error e) ↔
       (isPlainObject a = false ∨ isUndefined (getProp a "type") = true
        ∨ s.isDispatching = true
        ∨ ∃ e, s.currentReducer s.currentState a = .error e))
    ∧ ((∃ e, (dispatch env fuel s a).result = .error e) →
        (dispatch env fuel s a).store.currentState = s.currentState
        ∧ (dispatch env fuel s a).store.nextListeners = s.nextListeners
        ∧ (dispatch env fuel s a).store.currentListeners = s.currentListeners
        ∧ (dispatch env fuel s a).invoked = [])
    ∧ (isPlainObject a = true → isUndefined (getProp a "type") = false →
       s.isDispatching = true →
       dispatch env fuel s a = ⟨.error .reducersMayNotDispatchActions, s, []⟩) := by
  cases h1 : isPlainObject a with
  | false =>
    have hd : dispatch env fuel s a = ⟨.error .actionsMustBePlainObjects, s, []⟩ := by
      rw [dispatch_def]
      exact dispatchCore_notPlain env _ s a h1
    rw [hd]
    refine ⟨⟨fun _ => Or.inl rfl, fun _ => ⟨.actionsMustBePlainObjects, rfl⟩⟩,
            fun _ => ⟨rfl, rfl, rfl, rfl⟩, ?_⟩
    intro hp _ _
    exact Bool.noConfusion hp
  | true =>
    cases h2 : isUndefined (getProp a "type") with
    | true =>
      have hd : dispatch env fuel s a = ⟨.error .actionTypeUndefined, s, []⟩ := by
        rw [dispatch_def]
        exact dispatchCore_noType env _ s a h1 h2
      rw [hd]
      refine ⟨⟨fun _ => Or.inr (Or.inl rfl), fun _ => ⟨.actionTypeUndefined, rfl⟩⟩,
              fun _ => ⟨rfl, rfl, rfl, rfl⟩, ?_⟩
      intro _ hp _
      exact Bool.noConfusion hp
    | false =>
      cases h3 : s.isDispatching with
      | true =>
        have hd : dispatch env fuel s a =
            ⟨.error .reducersMayNotDispatchActions, s, []⟩ := by
          rw [dispatch_def]
          exact dispatchCore_reentrant env _ s a h1 h2 h3
        rw [hd]
        exact ⟨⟨fun _ => Or.inr (Or.inr (Or.inl rfl)),
                fun _ => ⟨.reducersMayNotDispatchActions, rfl⟩⟩,
               fun _ => ⟨rfl, rfl, rfl, rfl⟩, fun _ _ _ => rfl⟩
      | false =>
        cases h4 : s.currentReducer s.currentState a with
        | error e =>
          have hd : dispatch env fuel s a = ⟨.error e, s, []⟩ := by
            rw [dispatch_def]
            exact dispatchCore_reducerFail env _ s a e h1 h2 h3 h4
          rw [hd]
          refine ⟨⟨fun _ => Or.inr (Or.inr (Or.inr ⟨e, rfl⟩)), fun _ => ⟨e, rfl⟩⟩,
                  fun _ => ⟨rfl, rfl, rfl, rfl⟩, ?_⟩
          intro _ _ hp
          exact Bool.noConfusion hp
        | ok st =>
          have hres : (dispatch env fuel s a).result = .ok a := by
            rw [dispatch_def, dispatchCore_ok env _ s a st h1 h2 h3 h4]
          refine ⟨⟨?_, ?_⟩, ?_, ?_⟩
          · rintro ⟨e, he⟩
            rw [hres] at he
            exact Except.noConfusion he
          · rintro (hc | hc | hc | ⟨e, hc⟩)
            · exact Bool.noConfusion hc
            · exact Bool.noConfusion hc
            · exact Bool.noConfusion hc
            · exact Except.noConfusion hc
          · rintro ⟨e, he⟩
            rw [hres] at he
            exact Except.noConfusion he
          · intro _ _ hp
            exact Bool.noConfusion hp

/-- Witness for the amended C5: a dispatch issued against a store whose
reducer is currently executing fails with the no-nested-dispatch error
and changes nothing. -/
theorem dispatch_raises_iff_witness :
    dispatch envPure 1 storeMidReducer actInc =
      ⟨.error .reducersMayNotDispatchActions, storeMidReducer, []⟩ :=
  (dispatch_raises_iff envPure 1 storeMidReducer actInc).2.2 rfl rfl rfl

end ReadRedux
